import Mathlib

/-
Verification of the envi environment-report tool (src/main.rs and
src/component/system.rs) against its natural-language specification.

The tool is a single-pass pipeline: an argument selector decides which of
three report sections (System, Rust, Project) to emit; each reporter
queries host state, subprocesses or two TOML files and degrades every
failure to a sentinel string.  Host queries, subprocess spawning and file
reads are external collaborators: they are modelled as explicit inputs
(environment records with Option-valued results), and the pure
computations of the source are translated directly.
-/

set_option autoImplicit false

namespace Envi

/-! ## Argument selector (src/main.rs, struct Args and fn main) -/

/-- The four boolean command-line flags of `struct Args`. -/
structure Args where
  system : Bool
  rust : Bool
  project : Bool
  all : Bool
deriving DecidableEq, Repr

/-- The three report sections main can emit. -/
inductive ReportSection where
  | system
  | rust
  | project
deriving DecidableEq, Repr

/-- Mirrors `let all = args.all || (!args.system && !args.rust && !args.project)`
in main (src/main.rs line 37). -/
def Args.resolveAll (args : Args) : Bool :=
  args.all || (!args.system && !args.rust && !args.project)

/-- The sections main emits, in program order: the three
`if args.x || all` blocks of fn main (src/main.rs lines 39-55). -/
def mainSections (args : Args) : List ReportSection :=
  (if args.system || args.resolveAll then [ReportSection.system] else []) ++
  (if args.rust || args.resolveAll then [ReportSection.rust] else []) ++
  (if args.project || args.resolveAll then [ReportSection.project] else [])

/-! ## SystemInfo (src/main.rs lines 58-99)

The sysinfo host queries are an external collaborator; `SysEnv` carries
their results.  The memory string is computed by the source as
`format!("{:.2} GB / {:.2} GB", used as f64 / 1024.0 / 1024.0, total as f64 / 1024.0 / 1024.0)`.
Byte counts below 2^53 are exact in f64, and `{:.2}` rounds the exact
value to the nearest hundredth (ties to even), so the formatting is
modelled exactly on Nat. -/

/-- Results of the sysinfo host queries consumed by SystemInfo::collect. -/
structure SysEnv where
  name : Option String
  osVersion : Option String
  cpuBrand : String
  physicalCoreCount : Option Nat
  usedMemory : Nat
  totalMemory : Nat
  shellVar : Option String

structure SystemInfo where
  os : String
  cpu : String
  cpu_cores : Nat
  memory : String
  shell : String
deriving DecidableEq, Repr

/-- Nearest integer to n / d, ties to even (the rounding of Rust float
formatting, applied to the exact value). -/
def roundNearestEven (n d : Nat) : Nat :=
  let q := n / d
  let r := n % d
  if 2 * r < d then q
  else if d < 2 * r then q + 1
  else if q % 2 = 0 then q else q + 1

/-- The value `b as f64 / 1024.0 / 1024.0` rounded to hundredths:
the two divisions by 1024.0 divide by 1024^2 = 1048576. -/
def memHundredths (b : Nat) : Nat :=
  roundNearestEven (100 * b) 1048576

/-- Renders a count of hundredths the way `{:.2}` renders the value:
integer part, a dot, and exactly two fractional digits. -/
def renderHundredths (h : Nat) : String :=
  toString (h / 100) ++ "." ++ (if h % 100 < 10 then "0" else "") ++ toString (h % 100)

/-- The memory string of SystemInfo::collect (src/main.rs lines 76-80). -/
def formatMemory (used total : Nat) : String :=
  renderHundredths (memHundredths used) ++ " GB / " ++
    renderHundredths (memHundredths total) ++ " GB"

/-- SystemInfo::collect (src/main.rs lines 67-90), over the host-query
results. -/
def SystemInfo.collect (env : SysEnv) : SystemInfo :=
  { os := (env.name.getD ("Unknown")) ++ " " ++ (env.osVersion.getD (""))
  , cpu := env.cpuBrand
  , cpu_cores := env.physicalCoreCount.getD 0
  , memory := formatMemory env.usedMemory env.totalMemory
  , shell := env.shellVar.getD ("Unknown") }

/-! ## CompilerInfo (src/main.rs lines 124-172)

The rustc_version probes are external collaborators: `version()` yields
an Option String (None models Err), `version_meta()` an Option
VersionMeta.  The source calls `version_meta().unwrap()`, which panics
when the metadata read fails; that panic is modelled as `Except.error`. -/

/-- The rustc_version release channel enumeration. -/
inductive Channel where
  | dev
  | nightly
  | beta
  | stable
deriving DecidableEq, Repr

/-- The fields of rustc_version::VersionMeta consumed by
CompilerInfo::collect. -/
structure VersionMeta where
  host : String
  short_version_string : String
  commit_hash : Option String
  commit_date : Option String
  channel : Channel
deriving DecidableEq, Repr

structure CompilerInfo where
  version : String
  host : String
  release : String
  commit_hash : String
  commit_date : String
  channel : String
deriving DecidableEq, Repr

/-- The channel match of CompilerInfo::collect (src/main.rs lines 144-149). -/
def Channel.display : Channel → String
  | .dev => "Dev"
  | .nightly => "Nightly"
  | .beta => "Beta"
  | .stable => "Stable"

/-- CompilerInfo::collect (src/main.rs lines 134-161).  `rustcVersion` is
the result of `version()`, `vMeta` that of `version_meta()`; the
`.unwrap()` on a failed metadata read is an `Except.error`. -/
def CompilerInfo.collect (rustcVersion : Option String) (vMeta : Option VersionMeta) :
    Except Unit CompilerInfo :=
  match rustcVersion with
  | some ver =>
    match vMeta with
    | some m =>
      Except.ok
        { version := ver
        , host := m.host
        , release := m.short_version_string
        , commit_hash := m.commit_hash.getD ("Unknown")
        , commit_date := m.commit_date.getD ("Unknown")
        , channel := m.channel.display }
    | none => Except.error ()
  | none =>
    Except.ok
      { version := "rustc not found."
      , host := "Unknown"
      , release := "Unknown"
      , commit_hash := "Unknown"
      , commit_date := "Unknown"
      , channel := "Unknown" }

/-! ## ToolInfo (src/main.rs lines 174-215) -/

/-- External results consumed by ToolInfo::collect: whether
`which(command)` succeeded, and, if the spawned process's `output()`
returned Ok, the lossy-decoded stdout (None models an Err from
`output()`). -/
structure ToolEnv where
  whichOk : Bool
  output : Option String
deriving DecidableEq, Repr

structure ToolInfo where
  name : String
  version : String
deriving DecidableEq, Repr

/-- Rust str::split_whitespace over the character list: maximal runs of
non-whitespace characters, empty pieces skipped.  `acc` holds the
current run, reversed. -/
def splitWhitespaceAux : List Char → List Char → List String
  | [], acc => if acc.isEmpty then [] else [String.mk acc.reverse]
  | c :: cs, acc =>
    if c.isWhitespace then
      if acc.isEmpty then splitWhitespaceAux cs []
      else String.mk acc.reverse :: splitWhitespaceAux cs []
    else splitWhitespaceAux cs (c :: acc)

/-- Rust str::split_whitespace. -/
def splitWhitespace (s : String) : List String :=
  splitWhitespaceAux s.toList []

/-- fn extract_version_number (src/main.rs lines 210-215):
`info.split_whitespace().nth(1).unwrap_or("Unknown")`. -/
def extract_version_number (info : String) : String :=
  (splitWhitespace info).getD 1 ("Unknown")

/-- ToolInfo::collect (src/main.rs lines 180-202).  The second component
records whether a subprocess was spawned (the `Command::new(..).output()`
call happens exactly when `which` succeeded). -/
def ToolInfo.collect (name : String) (env : ToolEnv) : ToolInfo × Bool :=
  if env.whichOk then
    match env.output with
    | some out =>
      ({ name := name, version := extract_version_number out.trim }, true)
    | none =>
      ({ name := name, version := "Failed to get " ++ name ++ " version." }, true)
  else
    ({ name := name, version := name ++ " not found." }, false)

structure RustInfo where
  compiler : CompilerInfo
  cargo : ToolInfo
  rustup : ToolInfo
deriving DecidableEq, Repr

/-- RustInfo::collect (src/main.rs lines 108-114); the compiler sub-step
may abort (panic), which propagates. -/
def RustInfo.collect (rustcVersion : Option String) (vMeta : Option VersionMeta)
    (cargoEnv rustupEnv : ToolEnv) : Except Unit RustInfo :=
  match CompilerInfo.collect rustcVersion vMeta with
  | Except.ok c =>
    Except.ok
      { compiler := c
      , cargo := (ToolInfo.collect ("Cargo") cargoEnv).1
      , rustup := (ToolInfo.collect ("Rustup") rustupEnv).1 }
  | Except.error e => Except.error e

/-! ## TOML values and ProjectInfo (src/main.rs lines 217-337)

Modelled from the spec: generic TOML parsing is an external collaborator
("this spec defines only how their outputs are consumed"); the repository
manifest that fixes the toml crate's features is not under src/.  A
parsed document is a `Toml` value whose tables are association lists in
document (declaration) order, per the spec's ordering rule ("order =
declaration order in the manifest").  File existence, read and parse
failures are collapsed into one Option: `none` means the source never
reached the parsed-value branch. -/

inductive Toml where
  | str : String → Toml
  | int : Int → Toml
  | bool : Bool → Toml
  | arr : List Toml → Toml
  | table : List (String × Toml) → Toml

/-- Lookup of a key in a parsed table (toml::Value::get on a table). -/
def tableGet (t : List (String × Toml)) (key : String) : Option Toml :=
  (t.find? fun kv => kv.1 == key).map fun kv => kv.2

/-- toml::Value::get: indexing a value by key (None off tables). -/
def Toml.get : Toml → String → Option Toml
  | Toml.table t, key => tableGet t key
  | _, _ => none

/-- toml::Value::as_str. -/
def Toml.as_str : Toml → Option String
  | Toml.str s => some s
  | _ => none

/-- toml::Value::as_table. -/
def Toml.as_table : Toml → Option (List (String × Toml))
  | Toml.table t => some t
  | _ => none

/-- toml::Value::as_array. -/
def Toml.as_array : Toml → Option (List Toml)
  | Toml.arr l => some l
  | _ => none

structure DependencyInfo where
  name : String
  specified_version : String
  resolved_version : String
deriving DecidableEq, Repr

structure ProjectInfo where
  name : String
  version : String
  dependencies : List DependencyInfo
deriving DecidableEq, Repr

/-- One iteration of the lockfile loop (src/main.rs lines 255-266): when
the record has string "name" and "version" fields, `dep_versions.insert`;
the HashMap is modelled extensionally by its lookup function. -/
def lockStep (m : String → Option String) (p : Toml) : String → Option String :=
  match (p.get ("name")).bind Toml.as_str with
  | some n =>
    match (p.get ("version")).bind Toml.as_str with
    | some v => fun k => if k = n then some v else m k
    | none => m
  | none => m

/-- The dep_versions lookup built by ProjectInfo::collect (src/main.rs
lines 247-270) from the lockfile: the top-level "package" array folded
through `lockStep`, starting from the empty map. -/
def buildDepVersions (lockfile : Option Toml) : String → Option String :=
  match lockfile.bind fun lv => (lv.get ("package")).bind Toml.as_array with
  | some packages => packages.foldl lockStep fun _ => none
  | none => fun _ => none

/-- The body of the dependencies loop (src/main.rs lines 276-301): one
manifest entry becomes one DependencyInfo. -/
def mkDependency (depVersions : String → Option String) (entry : String × Toml) :
    DependencyInfo :=
  let specified :=
    match entry.2.as_str with
    | some s => s
    | none =>
      match entry.2.as_table with
      | some t =>
        match (tableGet t ("version")).bind Toml.as_str with
        | some s => s
        | none => "Unknown"
      | none => "Unknown"
  let resolved := (depVersions entry.1).getD ("Unknown")
  { name := entry.1, specified_version := specified, resolved_version := resolved }

/-- ProjectInfo::collect (src/main.rs lines 224-312).  `manifest` is
`some v` when Cargo.toml exists, reads and parses to `v`; likewise
`lockfile` for Cargo.lock. -/
def ProjectInfo.collect (manifest lockfile : Option Toml) : ProjectInfo :=
  match manifest with
  | none => { name := "Unknown", version := "Unknown", dependencies := [] }
  | some m =>
    let package := m.get ("package")
    let name := ((package.bind fun pk => pk.get ("name")).bind Toml.as_str).getD ("Unknown")
    let version := ((package.bind fun pk => pk.get ("version")).bind Toml.as_str).getD ("Unknown")
    let depVersions := buildDepVersions lockfile
    let dependencies :=
      match (m.get ("dependencies")).bind Toml.as_table with
      | some deps => deps.map (mkDependency depVersions)
      | none => []
    { name := name, version := version, dependencies := dependencies }

/-- The decorative separator `"=".repeat(10)`. -/
def sepEq : String := String.join (List.replicate 10 ("="))

/-- The lines printed by ProjectInfo::display (src/main.rs lines 314-330). -/
def ProjectInfo.displayLines (p : ProjectInfo) : List String :=
  [sepEq ++ "Project Information" ++ sepEq,
   "  Name    : " ++ p.name,
   "  Version : " ++ p.version] ++
  (if p.dependencies.isEmpty then
    ["  Dependencies: None"]
  else
    "  Dependencies:" :: p.dependencies.map fun dep =>
      "    - " ++ dep.name ++ " " ++ dep.specified_version ++
        " (" ++ dep.resolved_version ++ ")")

/-- Spec-side description of the lockfile lookup: the version of the LAST
record in file order whose "name" is `n` and that carries both string
fields; records missing either field contribute nothing. -/
def lastWins : List Toml → String → Option String
  | [], _ => none
  | p :: tl, n =>
    match lastWins tl n with
    | some v => some v
    | none =>
      match (p.get ("name")).bind Toml.as_str, (p.get ("version")).bind Toml.as_str with
      | some pn, some pv => if n = pn then some pv else none
      | some _, none => none
      | none, _ => none

/-! ## fn main as a run over an environment (src/main.rs lines 34-56)

All external queries of one run are gathered in `Env`; `mainRun` returns
`Except.error ()` exactly when the run panics (the `version_meta().unwrap()`
in CompilerInfo::collect) and `Except.ok ()` when the process completes
and exits with status 0. -/

structure Env where
  sysEnv : SysEnv
  rustcVersion : Option String
  vMeta : Option VersionMeta
  cargoEnv : ToolEnv
  rustupEnv : ToolEnv
  manifest : Option Toml
  lockfile : Option Toml

/-- fn main: runs the selected sections in order; the System and Project
reporters are total, the Rust reporter may abort. -/
def mainRun (args : Args) (env : Env) : Except Unit Unit :=
  let all := args.all || (!args.system && !args.rust && !args.project)
  let _sysReport := if args.system || all then some (SystemInfo.collect env.sysEnv) else none
  if args.rust || all then
    match RustInfo.collect env.rustcVersion env.vMeta env.cargoEnv env.rustupEnv with
    | Except.error e => Except.error e
    | Except.ok _ =>
      let _projReport :=
        if args.project || all then some (ProjectInfo.collect env.manifest env.lockfile) else none
      Except.ok ()
  else
    let _projReport :=
      if args.project || all then some (ProjectInfo.collect env.manifest env.lockfile) else none
    Except.ok ()

/-! ## The gated System component (src/component/system.rs) -/

/-- The three category flags of component::system::SystemArgs. -/
structure SystemArgs where
  os : Bool
  mem : Bool
  cpu : Bool
deriving DecidableEq, Repr

/-- One sysinfo::Cpu record as read by the component. -/
structure CpuRaw where
  name : String
  brand : String
  vendor_id : String
deriving DecidableEq, Repr

/-- The sysinfo host snapshot consumed by System::new: the static
queries (name, os_version, kernel_version, distribution_id, cpu_arch)
and the instance queries (memory, swap, cpus). -/
structure HostSnapshot where
  name : Option String
  os_version : Option String
  kernel_version : Option String
  distribution_id : String
  total_memory : Nat
  used_memory : Nat
  total_swap : Nat
  used_swap : Nat
  cpu_arch : Option String
  cpus : List CpuRaw
deriving DecidableEq, Repr

/-- component::system::Cpu. -/
structure Cpu where
  name : String
  model : String
  vendor_id : String
deriving DecidableEq, Repr

/-- Cpu::new (src/component/system.rs lines 139-147) composed with the
CpuSlice conversion (lines 162-174): None on an empty cpu list. -/
def Cpu.new (snap : HostSnapshot) : Option (List Cpu) :=
  if snap.cpus.isEmpty then none
  else
    some (snap.cpus.map fun c =>
      { name := c.name.trim, model := c.brand, vendor_id := c.vendor_id })

/-- component::system::System. -/
structure SystemReport where
  os_name : Option String
  os_version : Option String
  os_kernel_version : Option String
  os_distribution_id : Option String
  mem_total_bytes : Option Nat
  mem_used_bytes : Option Nat
  mem_swap_total_bytes : Option Nat
  mem_swap_used_bytes : Option Nat
  cpu_arch : Option String
  cpu : Option (List Cpu)
deriving DecidableEq, Repr

/-- System::new (src/component/system.rs lines 22-81): each field is
queried only under its category flag. -/
def SystemReport.new (args : SystemArgs) (snap : HostSnapshot) : SystemReport :=
  { os_name := if args.os then snap.name else none
  , os_version := if args.os then snap.os_version else none
  , os_kernel_version := if args.os then snap.kernel_version else none
  , os_distribution_id := if args.os then some snap.distribution_id else none
  , mem_total_bytes := if args.mem then some snap.total_memory else none
  , mem_used_bytes := if args.mem then some snap.used_memory else none
  , mem_swap_total_bytes := if args.mem then some snap.total_swap else none
  , mem_swap_used_bytes := if args.mem then some snap.used_swap else none
  , cpu_arch := if args.cpu then snap.cpu_arch else none
  , cpu := if args.cpu then Cpu.new snap else none }

end Envi

namespace Envi

/-- C1: selecting zero section flags emits the same sections, in the same
order, as selecting all three flags explicitly and as passing --all:
System then Rust then Project. -/
theorem C1_zero_flags_defaults_to_all :
    mainSections ⟨false, false, false, false⟩ =
      [ReportSection.system, ReportSection.rust, ReportSection.project] ∧
    mainSections ⟨true, true, true, false⟩ =
      [ReportSection.system, ReportSection.rust, ReportSection.project] ∧
    mainSections ⟨false, false, false, true⟩ =
      [ReportSection.system, ReportSection.rust, ReportSection.project] := by
  refine ⟨rfl, rfl, rfl⟩

/-- C2 counterexample: with used = 1073741824 bytes and total = 2147483648
bytes, SystemInfo.collect renders the memory string as
"1024.00 GB / 2048.00 GB", not "1.00 GB / 2.00 GB": the source divides by
1024^2, which does not take bytes to gigabytes. -/
theorem C2_counterexample_memory_string :
    (SystemInfo.collect
        ⟨some ("Linux"), some ("6.1"), "cpu0", some 8,
          1073741824, 2147483648, some ("/bin/bash")⟩).memory =
      "1024.00 GB / 2048.00 GB" ∧
    ¬ (SystemInfo.collect
        ⟨some ("Linux"), some ("6.1"), "cpu0", some 8,
          1073741824, 2147483648, some ("/bin/bash")⟩).memory =
      "1.00 GB / 2.00 GB" := by
  refine ⟨rfl, by decide⟩

/-- C2 amended: SystemInfo.collect divides each of used and total by
1024^2 and formats to exactly two decimal places; for
used = 1073741824 and total = 2147483648 the rendered string is
"1024.00 GB / 2048.00 GB", and the two-decimal formatting shows in
"1.50 GB / 3.00 GB" for used = 1572864, total = 3145728. -/
theorem C2_amended_memory_format :
    (SystemInfo.collect
        ⟨some ("Linux"), some ("6.1"), "cpu0", some 8,
          1073741824, 2147483648, some ("/bin/bash")⟩).memory =
      "1024.00 GB / 2048.00 GB" ∧
    formatMemory 1572864 3145728 = "1.50 GB / 3.00 GB" ∧
    ∀ used total : Nat,
      formatMemory used total =
        renderHundredths (roundNearestEven (100 * used) (1024 * 1024)) ++ " GB / " ++
          renderHundredths (roundNearestEven (100 * total) (1024 * 1024)) ++ " GB" := by
  refine ⟨rfl, rfl, fun used total => rfl⟩

/-- C3 counterexample: a run with every section selected by default, in
which the compiler version probe succeeds but the metadata read fails,
aborts (the unwrap panic) instead of exiting with success. -/
theorem C3_counterexample_unwrap_panic :
    mainRun ⟨false, false, false, false⟩
      ⟨⟨some ("Linux"), some ("6.1"), "cpu0", some 8, 0, 0, some ("/bin/bash")⟩,
        some ("1.75.0"), none, ⟨false, none⟩, ⟨false, none⟩, none, none⟩ =
      Except.error () := rfl

/-- C3 amended: every run in which it is not the case that the compiler
version probe succeeds while the metadata read fails completes normally
with a success exit status; in particular a missing manifest never causes
a failure exit. -/
theorem C3_amended_exit_success (args : Args) (env : Env)
    (h : ¬ (env.rustcVersion.isSome = true ∧ env.vMeta = none)) :
    mainRun args env = Except.ok () := by
  rcases env with ⟨se, rv, vm, ce, re, mf, lf⟩
  by_cases hc :
      (args.rust || (args.all || (!args.system && !args.rust && !args.project))) = true <;>
    rcases rv with _ | v <;> rcases vm with _ | m <;>
      simp_all [mainRun, RustInfo.collect, CompilerInfo.collect, Except.map]

/-- C3 witness: a concrete run with no compiler installed (version probe
fails) exits with success. -/
theorem C3_amended_exit_success_witness :
    mainRun ⟨false, false, false, false⟩
      ⟨⟨some ("Linux"), some ("6.1"), "cpu0", some 8, 0, 0, some ("/bin/bash")⟩,
        none, none, ⟨false, none⟩, ⟨false, none⟩, none, none⟩ =
      Except.ok () :=
  C3_amended_exit_success ⟨false, false, false, false⟩
    ⟨⟨some ("Linux"), some ("6.1"), "cpu0", some 8, 0, 0, some ("/bin/bash")⟩,
      none, none, ⟨false, none⟩, ⟨false, none⟩, none, none⟩
    (by decide)

/-- C4: a successful version probe followed by a failed metadata read
aborts CompilerInfo.collect with no fallback, and a run aborts exactly
when the Rust section is selected and that situation occurs: it is the
only unrecoverable failure path. -/
theorem C4_unwrap_only_failure_path :
    (∀ v : String, CompilerInfo.collect (some v) none = Except.error ()) ∧
    ∀ args : Args, ∀ env : Env,
      (mainRun args env = Except.error () ↔
        ((args.rust || (args.all || (!args.system && !args.rust && !args.project))) = true ∧
          env.rustcVersion.isSome = true ∧ env.vMeta = none)) := by
  constructor
  · intro v; rfl
  · intro args env
    rcases env with ⟨se, rv, vm, ce, re, mf, lf⟩
    by_cases hc :
        (args.rust || (args.all || (!args.system && !args.rust && !args.project))) = true <;>
      rcases rv with _ | v <;> rcases vm with _ | m <;>
        simp [mainRun, RustInfo.collect, CompilerInfo.collect, Except.map, hc]

/-- C5: ToolInfo.collect yields "{name} not found." with no subprocess
spawned when the executable is absent, "Failed to get {name} version."
when the spawn fails, and otherwise the second whitespace token of the
trimmed captured stdout via extract_version_number, which falls back to
"Unknown" below two tokens. -/
theorem C5_toolinfo_collect_spec :
    (∀ name : String, ∀ out : Option String,
        ToolInfo.collect name { whichOk := false, output := out } =
          ({ name := name, version := name ++ " not found." }, false)) ∧
    (∀ name : String,
        ToolInfo.collect name { whichOk := true, output := none } =
          ({ name := name, version := "Failed to get " ++ name ++ " version." }, true)) ∧
    (∀ name out : String,
        ToolInfo.collect name { whichOk := true, output := some out } =
          ({ name := name, version := extract_version_number out.trim }, true)) ∧
    extract_version_number ("cargo 1.75.0 (hash 2023-12-01)") = "1.75.0" ∧
    extract_version_number ("singleword") = "Unknown" := by
  refine ⟨fun name out => rfl, fun name => rfl, fun name out => rfl, ?_, ?_⟩ <;> rfl

/-- C6: a manifest dependency entry yields its direct string value as
specified_version, or the "version" sub-field of a table entry (unrelated
sub-fields ignored), defaulting to "Unknown"; resolved_version is the
exact-name lookup defaulting to "Unknown"; and the foo round-trip example
holds end to end. -/
theorem C6_dependency_extraction :
    (∀ dv : String → Option String, ∀ n s : String,
        mkDependency dv (n, Toml.str s) =
          { name := n, specified_version := s,
            resolved_version := (dv n).getD ("Unknown") }) ∧
    (∀ dv : String → Option String, ∀ n : String, ∀ t : List (String × Toml),
        (mkDependency dv (n, Toml.table t)).specified_version =
          ((tableGet t ("version")).bind Toml.as_str).getD ("Unknown")) ∧
    (∀ dv : String → Option String, ∀ n : String, ∀ i : Int,
        (mkDependency dv (n, Toml.int i)).specified_version = "Unknown") ∧
    (∀ dv : String → Option String, ∀ entry : String × Toml,
        (mkDependency dv entry).resolved_version = (dv entry.1).getD ("Unknown")) ∧
    ProjectInfo.collect
        (some (Toml.table
          [("package", Toml.table
              [("name", Toml.str ("myproj")), ("version", Toml.str ("0.1.0"))]),
           ("dependencies", Toml.table [("foo", Toml.str ("1.0"))])]))
        (some (Toml.table
          [("package", Toml.arr
              [Toml.table [("name", Toml.str ("foo")), ("version", Toml.str ("1.0.3"))]])])) =
      { name := "myproj", version := "0.1.0",
        dependencies :=
          [{ name := "foo", specified_version := "1.0", resolved_version := "1.0.3" }] } ∧
    (mkDependency (fun _ => none)
        ("bar", Toml.table
          [("version", Toml.str ("2.0")),
           ("features", Toml.arr [Toml.str ("f1")])])).specified_version = "2.0" := by
  refine ⟨fun dv n s => rfl, fun dv n t => ?_, fun dv n i => rfl,
    fun dv entry => rfl, rfl, rfl⟩
  show (match (tableGet t ("version")).bind Toml.as_str with
        | some s => s
        | none => "Unknown") =
      ((tableGet t ("version")).bind Toml.as_str).getD ("Unknown")
  cases (tableGet t ("version")).bind Toml.as_str <;> rfl

/-- C7: for every parseable manifest, the dependency records of
ProjectInfo.collect are in the declaration order of the manifest's
dependencies table. -/
theorem C7_dependency_order (m : Toml) (lockfile : Option Toml)
    (depsT : List (String × Toml))
    (h : (m.get ("dependencies")).bind Toml.as_table = some depsT) :
    (ProjectInfo.collect (some m) lockfile).dependencies.map DependencyInfo.name =
      depsT.map fun kv => kv.1 := by
  simp only [ProjectInfo.collect, h, List.map_map]
  exact List.map_congr_left fun kv _ => rfl

/-- C7 witness: a two-entry manifest declared in the order b, a reports
its dependencies as b, a. -/
theorem C7_dependency_order_witness :
    (ProjectInfo.collect
        (some (Toml.table
          [("dependencies", Toml.table [("b", Toml.str ("1")), ("a", Toml.str ("2"))])]))
        none).dependencies.map DependencyInfo.name = ["b", "a"] :=
  C7_dependency_order
    (Toml.table [("dependencies", Toml.table [("b", Toml.str ("1")), ("a", Toml.str ("2"))])])
    none [("b", Toml.str ("1")), ("a", Toml.str ("2"))] rfl

/-- C8: a missing or unparseable manifest yields the all-Unknown,
empty-dependency ProjectInfo without error, and display then prints the
line "  Dependencies: None". -/
theorem C8_missing_manifest_defaults (lockfile : Option Toml) :
    ProjectInfo.collect none lockfile =
      { name := "Unknown", version := "Unknown", dependencies := [] } ∧
    (ProjectInfo.collect none lockfile).displayLines =
      [sepEq ++ "Project Information" ++ sepEq,
       "  Name    : Unknown",
       "  Version : Unknown",
       "  Dependencies: None"] ∧
    ("  Dependencies: None") ∈ (ProjectInfo.collect none lockfile).displayLines := by
  refine ⟨rfl, rfl, ?_⟩
  simp [ProjectInfo.collect, ProjectInfo.displayLines]

/-- Folding lockStep over the package records threads the accumulator:
the result at a name is the last matching record's version, falling back
to the accumulator. -/
theorem foldl_lockStep_eq (ps : List Toml) :
    ∀ (m : String → Option String) (n : String),
      (ps.foldl lockStep m) n =
        match lastWins ps n with
        | some v => some v
        | none => m n := by
  induction ps with
  | nil => intro m n; rfl
  | cons p tl ih =>
    intro m n
    simp only [List.foldl_cons, lastWins]
    rw [ih]
    rcases hlw : lastWins tl n with _ | v
    · simp only [hlw]
      rcases hn : (p.get ("name")).bind Toml.as_str with _ | pn
      · simp [lockStep, hn]
      · rcases hv : (p.get ("version")).bind Toml.as_str with _ | pv
        · simp [lockStep, hn, hv]
        · simp only [lockStep, hn, hv]
          by_cases hnp : n = pn <;> simp [hnp]
    · simp only [hlw]

/-- C9: the lockfile-derived lookup maps a name to the version of the
last record in file order with that name (last-seen wins), records
missing either string field contribute nothing, and a concrete duplicate
resolves to the later version. -/
theorem C9_lockfile_last_wins :
    (∀ ps : List Toml, ∀ n : String,
        buildDepVersions (some (Toml.table [("package", Toml.arr ps)])) n = lastWins ps n) ∧
    (∀ p : Toml,
        ((p.get ("name")).bind Toml.as_str = none ∨
          (p.get ("version")).bind Toml.as_str = none) →
        ∀ ps1 ps2 : List Toml, ∀ n : String,
          buildDepVersions (some (Toml.table [("package", Toml.arr (ps1 ++ p :: ps2))])) n =
            buildDepVersions (some (Toml.table [("package", Toml.arr (ps1 ++ ps2))])) n) ∧
    buildDepVersions (some (Toml.table [("package", Toml.arr
        [Toml.table [("name", Toml.str ("dup")), ("version", Toml.str ("1.0.0"))],
         Toml.table [("name", Toml.str ("dup")), ("version", Toml.str ("2.0.0"))]])]))
      ("dup") = some ("2.0.0") := by
  refine ⟨?_, ?_, rfl⟩
  · intro ps n
    show (ps.foldl lockStep fun _ => none) n = lastWins ps n
    rw [foldl_lockStep_eq]
    cases lastWins ps n <;> rfl
  · intro p hp ps1 ps2 n
    show ((ps1 ++ p :: ps2).foldl lockStep fun _ => none) n =
      ((ps1 ++ ps2).foldl lockStep fun _ => none) n
    rw [List.foldl_append, List.foldl_append, List.foldl_cons]
    have hstep : lockStep (ps1.foldl lockStep fun _ => none) p =
        ps1.foldl lockStep fun _ => none := by
      rcases hp with hp | hp
      · simp [lockStep, hp]
      · rcases hn : (p.get ("name")).bind Toml.as_str with _ | pn
        · simp [lockStep, hn]
        · simp [lockStep, hn, hp]
    rw [hstep]

/-- C9 witness: a record whose "name" field is not a string contributes
nothing: inserting it between no other records leaves the lookup of any
name unchanged. -/
theorem C9_lockfile_last_wins_witness :
    buildDepVersions (some (Toml.table [("package",
        Toml.arr ([] ++ Toml.table [("name", Toml.int 3)] :: []))])) ("x") =
      buildDepVersions (some (Toml.table [("package", Toml.arr ([] ++ []))])) ("x") :=
  C9_lockfile_last_wins.2.1 (Toml.table [("name", Toml.int 3)]) (Or.inl rfl) [] [] ("x")

/-- C10: SystemReport.new populates a field only when its category flag
was requested: with os false every os field is none, with mem false
every memory field is none, with cpu false both cpu fields are none. -/
theorem C10_gating_invariant :
    (∀ memF cpuF : Bool, ∀ snap : HostSnapshot,
        (SystemReport.new ⟨false, memF, cpuF⟩ snap).os_name = none ∧
        (SystemReport.new ⟨false, memF, cpuF⟩ snap).os_version = none ∧
        (SystemReport.new ⟨false, memF, cpuF⟩ snap).os_kernel_version = none ∧
        (SystemReport.new ⟨false, memF, cpuF⟩ snap).os_distribution_id = none) ∧
    (∀ osF cpuF : Bool, ∀ snap : HostSnapshot,
        (SystemReport.new ⟨osF, false, cpuF⟩ snap).mem_total_bytes = none ∧
        (SystemReport.new ⟨osF, false, cpuF⟩ snap).mem_used_bytes = none ∧
        (SystemReport.new ⟨osF, false, cpuF⟩ snap).mem_swap_total_bytes = none ∧
        (SystemReport.new ⟨osF, false, cpuF⟩ snap).mem_swap_used_bytes = none) ∧
    (∀ osF memF : Bool, ∀ snap : HostSnapshot,
        (SystemReport.new ⟨osF, memF, false⟩ snap).cpu_arch = none ∧
        (SystemReport.new ⟨osF, memF, false⟩ snap).cpu = none) := by
  refine ⟨fun memF cpuF snap => ⟨rfl, rfl, rfl, rfl⟩,
    fun osF cpuF snap => ⟨rfl, rfl, rfl, rfl⟩,
    fun osF memF snap => ⟨rfl, rfl⟩⟩

end Envi
